import Mathlib

/-!
# Verification of the directive-to-resolver compiler

A shallow embedding of the directive-to-resolver compiler of
`amplify-category-api` (the `@primaryKey` / `@hasOne` / `@hasMany`
transformer core), together with theorems checking its natural-language
specification.

The embedding covers:

* the mapping-template expression IR (`Expression`) as used by
  `packages/amplify-graphql-relational-transformer/src/resolvers.ts`;
* `makeGetItemConnectionWithKeyResolver` (request/response program
  synthesis for singular `@hasOne` connections);
* `condenseRangeKey` and
  `getConnectedSortKeyAttributeDefinitionsForImplicitHasManyObject`
  (composite sort-key condensation);
* `updateTableForConnection` and `appendIndex` (secondary-index
  reconciliation, keeping the declarative L2 and raw L1 index lists in
  sync);
* the `PrimaryKeyTransformer` schema-visit phase (`field` visitor and
  `validate`) for the `@primaryKey` directive.

External collaborators (schema registry, table registry, name mapping,
transform parameters) are passed in explicitly as context records, in the
shape the source consumes them through; parts of the repository that are
only declared here (type predicates from `graphql-transformer-common`,
helpers from the transformer `utils`) are modelled from the specification
and flagged as such in their doc comments.
-/

namespace AmplifyCompiler

/-! ## GraphQL AST fragments

The slices of the `graphql` AST that the compiler reads: type references,
directives, field and object definitions. -/

/-- A GraphQL type reference: a named type, a list type, or a non-null
wrapper (mirrors `TypeNode` of the `graphql` package). -/
inductive TypeNode where
  | named (name : String)
  | listType (ofType : TypeNode)
  | nonNull (ofType : TypeNode)
  deriving DecidableEq, Repr

/-- A directive attached to a field or object; only the directive name is
consumed by the validator. -/
structure DirectiveNode where
  name : String
  deriving DecidableEq, Repr

/-- A GraphQL field definition (`FieldDefinitionNode`): name, type and
attached directives. -/
structure FieldDefinitionNode where
  name : String
  type : TypeNode
  directives : List DirectiveNode
  deriving DecidableEq, Repr

/-- A GraphQL object type definition (`ObjectTypeDefinitionNode`): name,
fields and attached directives. -/
structure ObjectTypeDefinitionNode where
  name : String
  fields : List FieldDefinitionNode
  directives : List DirectiveNode
  deriving DecidableEq, Repr

/-- Modelled from the spec: `isNonNullType` of `graphql-transformer-common`
(not under `src/`); a type reference is non-null when its outermost wrapper
is the non-null wrapper. -/
def isNonNullType : TypeNode → Bool
  | .nonNull _ => true
  | _ => false

/-- Modelled from the spec: `isListType` of `graphql-transformer-common`
(not under `src/`); a type reference is a list type when, after unwrapping
an outer non-null wrapper, it is a list. -/
def isListType : TypeNode → Bool
  | .nonNull t => isListType t
  | .listType _ => true
  | .named _ => false

/-- The built-in scalar type names of the AppSync schema dialect. -/
def builtInScalars : List String :=
  ["ID", "String", "Int", "Float", "Boolean", "AWSJSON", "AWSDate", "AWSTime",
   "AWSDateTime", "AWSTimestamp", "AWSEmail", "AWSURL", "AWSPhone", "AWSIPAddress"]

/-- Modelled from the spec: `isScalarOrEnum` of `graphql-transformer-common`
(not under `src/`); unwraps non-null and list wrappers and checks that the
base named type is a built-in scalar or one of the schema's enum types. -/
def isScalarOrEnum (t : TypeNode) (enums : List String) : Bool :=
  match t with
  | .nonNull u => isScalarOrEnum u enums
  | .listType u => isScalarOrEnum u enums
  | .named n => builtInScalars.contains n || enums.contains n

/-- Modelled from the spec: `attributeTypeFromScalar` of
`graphql-transformer-common` (not under `src/`); a key attribute is
number-typed (`"N"`) for numeric scalars and string-typed (`"S"`)
otherwise. -/
def attributeTypeFromScalar (t : TypeNode) : String :=
  match t with
  | .nonNull u => attributeTypeFromScalar u
  | .listType _ => "S"
  | .named n => if n == "Int" || n == "Float" || n == "AWSTimestamp" then "N" else "S"

/-! ## Mapping-template expression IR

The expression nodes of `graphql-mapping-template` used by
`resolvers.ts`.  Constructor names follow the library's builder
functions. -/

/-- The mapping-template expression IR: the tagged union of nodes the
resolver synthesizer builds programs from. -/
inductive Expression where
  | str (value : String)
  | int (value : Int)
  | nul
  | bool (value : Bool)
  | ref (path : String)
  | raw (text : String)
  | methodCall (method : Expression) (args : List Expression)
  | obj (attributes : List (String × Expression))
  | list (elems : List Expression)
  | set (target : Expression) (value : Expression)
  | qref (e : Expression)
  | iff (condition : Expression) (thenBranch : Expression)
  | ifElse (condition : Expression) (thenBranch : Expression) (elseBranch : Expression)
  | and (operands : List Expression)
  | or (operands : List Expression)
  | not (e : Expression)
  | equals (lhs : Expression) (rhs : Expression)
  | isNullOrEmpty (e : Expression)
  | toJson (e : Expression)
  | compoundExpression (statements : List Expression)

/-- Modelled from the spec: `NONE_VALUE` of `graphql-transformer-common`
(not under `src/`), the blank/null placeholder sentinel substituted when a
source value is absent. -/
def NONE_VALUE : String := "___xamznone____"

/-- Modelled from the spec:
`ModelResourceIDs.ModelCompositeKeySeparator()` of
`graphql-transformer-common` (not under `src/`), the fixed reserved
separator used to join composite sort-key parts. -/
def ModelCompositeKeySeparator : String := "#"

/-- `condenseRangeKey` (resolvers.ts:183-185): joins an ordered list of
per-field strings with the fixed composite-key separator. -/
def condenseRangeKey (fields : List String) : String :=
  String.intercalate ModelCompositeKeySeparator fields

/-! ## Singular-connection resolver synthesis

`makeGetItemConnectionWithKeyResolver` (resolvers.ts:70-181) translated
node for node.  The transformer context is narrowed to the data the
function reads: the related table's key schema and the source object's
definition from the output shim. -/

/-- One element of a table's key schema: attribute name plus its HASH or
RANGE role. -/
structure KeySchemaElement where
  attributeName : String
  keyType : String
  deriving DecidableEq, Repr

/-- The `@hasOne` directive configuration slice consumed by
`makeGetItemConnectionWithKeyResolver`: source object and field, the
explicit `fields` override, the implicit `connectionFields`, and the
related type's index attribute names (`relatedTypeIndex`). -/
structure HasOneDirectiveConfiguration where
  object : ObjectTypeDefinitionNode
  field : FieldDefinitionNode
  fields : List String
  connectionFields : List String
  relatedTypeIndex : List String
  deriving DecidableEq, Repr

/-- The transformer-context slice read by the singular-connection
synthesizer: the related table's key schema (`getTable`/`keySchema`) and
the source object definition (`ctx.output.getObject`). -/
structure SynthCtx where
  relatedTableKeySchema : List KeySchemaElement
  objectDef : ObjectTypeDefinitionNode

/-- A synthesized request/response mapping-program pair, keyed by
`(typeName, fieldName)` for resolver registration. -/
structure ResolverProgramPair where
  typeName : String
  fieldName : String
  requestProgram : Expression
  responseProgram : Expression

/-- `buildKeyValueExpression` (resolvers.ts:52-63): a reference expression
that parses the DynamoDB JSON of the (null/blank-defaulted) key value,
reading `$partitionKeyValue` for the partition key and `$ctx.source.<f>`
otherwise. -/
def buildKeyValueExpression (fieldName : String) (object : ObjectTypeDefinitionNode)
    (isPartitionKey : Bool := false) : Expression :=
  let field := object.fields.find? (fun it => it.name == fieldName)
  let attributeType := match field with
    | some f => attributeTypeFromScalar f.type
    | none => "S"
  .ref ("util.parseJson($util.dynamodb.toDynamoDBJson($util." ++
    (if attributeType == "S" then "defaultIfNullOrBlank" else "defaultIfNull") ++ "(" ++
    (if isPartitionKey then "$partitionKeyValue" else "$ctx.source." ++ fieldName) ++
    ", \"" ++ NONE_VALUE ++ "\")))")

/-- The runtime composite sort-key value emitted by the synthesizer
(resolvers.ts:93): `condenseRangeKey` over the `$\x7bctx.source.<field>\x7d`
placeholders of the range-key fields. -/
def condensedSortKeyValue (rangeKeyFields : List String) : String :=
  condenseRangeKey (rangeKeyFields.map (fun keyField => "$\x7bctx.source." ++ keyField ++ "\x7d"))

/-- The request mapping program of a singular connection
(resolvers.ts:115-157): return null on a denied field, resolve the
partition-key value from the connection-attributes stash defaulted to the
source field, then either short-circuit with `#return` or build and emit
the remote Query request (splicing the auth filter when present). -/
def connectionRequestProgram (localFields : List String) (totalExpressions : List String)
    (totalExpressionNames totalExpressionValues : List (String × Expression)) : Expression :=
  .compoundExpression [
    .iff (.ref "ctx.stash.deniedField") (.raw "#return($util.toJson(null))"),
    .set (.ref "partitionKeyValue")
      (.methodCall (.ref "util.defaultIfNull")
        [.ref ("ctx.stash.connectionAttibutes.get(\"" ++ localFields.headD "" ++ "\")"),
         .ref ("ctx.source." ++ localFields.headD "")]),
    .ifElse
      (.or (.methodCall (.ref "util.isNull") [.ref "partitionKeyValue"] ::
            (localFields.drop 1).map (fun f => .raw ("$util.isNull($ctx.source." ++ f ++ ")"))))
      (.raw "#return")
      (.compoundExpression [
        .set (.ref "GetRequest") (.obj [("version", .str "2018-05-29"), ("operation", .str "Query")]),
        .qref (.methodCall (.ref "GetRequest.put")
          [.str "query",
           .obj [("expression", .str (String.intercalate " AND " totalExpressions)),
                 ("expressionNames", .obj totalExpressionNames),
                 ("expressionValues", .obj totalExpressionValues)]]),
        .iff (.not (.isNullOrEmpty (.ref "ctx.stash.authFilter")))
          (.qref (.methodCall (.ref "GetRequest.put")
            [.str "filter",
             .methodCall (.ref "util.parseJson")
               [.methodCall (.ref "util.transform.toDynamoDBFilterExpression")
                 [.ref "ctx.stash.authFilter"]]])),
        .toJson (.ref "GetRequest")])]

/-- The response mapping program of a singular connection
(resolvers.ts:165-172): one matching item with scanned count 1 returns the
item, an empty item list with scanned count 1 raises unauthorized, any
other shape returns null. -/
def connectionResponseProgram : Expression :=
  .ifElse
    (.and [.not (.ref "ctx.result.items.isEmpty()"),
           .equals (.ref "ctx.result.scannedCount") (.int 1)])
    (.toJson (.ref "ctx.result.items[0]"))
    (.compoundExpression [
      .iff (.and [.ref "ctx.result.items.isEmpty()",
                  .equals (.ref "ctx.result.scannedCount") (.int 1)])
        (.ref "util.unauthorized()"),
      .toJson .nul])

/-- `makeGetItemConnectionWithKeyResolver` (resolvers.ts:70-181): the
singular-connection resolver synthesizer.  Fails when the related type's
index field list is empty; otherwise builds the key-condition expression
pieces (adding a simple or condensed sort key according to the index
arity) and returns the request/response program pair. -/
def makeGetItemConnectionWithKeyResolver (ctx : SynthCtx)
    (config : HasOneDirectiveConfiguration) : Except String ResolverProgramPair :=
  if config.relatedTypeIndex.length == 0 then
    .error "Expected relatedType index fields to be set for connection."
  else
    let localFields := if config.fields.length > 0 then config.fields else config.connectionFields
    let keySchema := ctx.relatedTableKeySchema
    let partitionKeyName := (keySchema.headD ⟨"", ""⟩).attributeName
    let totalExpressions := ["#partitionKey = :partitionValue"]
    let totalExpressionNames := [("#partitionKey", Expression.str partitionKeyName)]
    let totalExpressionValues :=
      [(":partitionValue", buildKeyValueExpression (localFields.headD "") ctx.objectDef true)]
    let (totalExpressions, totalExpressionNames, totalExpressionValues) :=
      if config.relatedTypeIndex.length > 2 then
        let rangeKeyFields := localFields.drop 1
        let sortKeyName := (keySchema.getD 1 ⟨"", ""⟩).attributeName
        (totalExpressions ++ ["#sortKeyName = :sortKeyName"],
         totalExpressionNames ++ [("#sortKeyName", Expression.str sortKeyName)],
         totalExpressionValues ++
           [(":sortKeyName",
             Expression.ref ("util.parseJson($util.dynamodb.toDynamoDBJson($util.defaultIfNullOrBlank(\"" ++
               condensedSortKeyValue rangeKeyFields ++ "\", \"" ++ NONE_VALUE ++ "\")))"))])
      else if config.relatedTypeIndex.length == 2 then
        let sortKeyName := (keySchema.getD 1 ⟨"", ""⟩).attributeName
        (totalExpressions ++ ["#sortKeyName = :sortKeyName"],
         totalExpressionNames ++ [("#sortKeyName", Expression.str sortKeyName)],
         totalExpressionValues ++
           [(":sortKeyName", buildKeyValueExpression (localFields.getD 1 "") ctx.objectDef)])
      else (totalExpressions, totalExpressionNames, totalExpressionValues)
    .ok
      { typeName := config.object.name
        fieldName := config.field.name
        requestProgram :=
          connectionRequestProgram localFields totalExpressions totalExpressionNames
            totalExpressionValues
        responseProgram := connectionResponseProgram }

/-- Resolver registration (resolvers.ts:180, `ctx.resolvers.addResolver`):
on success the synthesized pair is appended to the resolver registry; on
failure the registry is left unchanged. -/
def registerConnectionResolver (ctx : SynthCtx) (config : HasOneDirectiveConfiguration)
    (registry : List ResolverProgramPair) : Except String (List ResolverProgramPair) :=
  match makeGetItemConnectionWithKeyResolver ctx config with
  | .error e => .error e
  | .ok pair => .ok (registry ++ [pair])

/-! ## Runtime semantics of the generated programs

The generated mapping templates are evaluated later, at query-execution
time, outside the compiler core (spec §7).  The evaluators below give that
runtime semantics to the IR forms the synthesized programs use: `Option`
is `none` on forms outside the synthesized fragment. -/

/-- The query result a response program runs against: the item list and
the scanned count of the remote Query. -/
structure QueryResult where
  items : List String
  scannedCount : Int
  deriving DecidableEq, Repr

/-- Outcome of a response program run: a returned item payload, an
`unauthorized` error, or a null result. -/
inductive ResponseOutcome where
  | returnedItem (payload : String)
  | unauthorized
  | returnedNull
  deriving DecidableEq, Repr

/-- Runtime truth value of a boolean expression over a query result
(`$ctx.result` references, equality with an integer literal, `not` and
binary `and`). -/
def evalResultBool (r : QueryResult) : Expression → Option Bool
  | .ref "ctx.result.items.isEmpty()" => some r.items.isEmpty
  | .equals (.ref "ctx.result.scannedCount") (.int n) => some (r.scannedCount == n)
  | .not e => (evalResultBool r e).map (fun b => !b)
  | .and [a, b] =>
    match evalResultBool r a, evalResultBool r b with
    | some x, some y => some (x && y)
    | _, _ => none
  | _ => none

/-- Runtime outcome of a response program over a query result: branches of
`ifElse`, the guarded `util.unauthorized()` raise, and the `toJson`
returns of the first item or null. -/
def evalResponse (r : QueryResult) : Expression → Option ResponseOutcome
  | .ifElse c t e =>
    match evalResultBool r c with
    | some true => evalResponse r t
    | some false => evalResponse r e
    | none => none
  | .compoundExpression [.iff c b, rest] =>
    match evalResultBool r c with
    | some true => evalResponse r b
    | some false => evalResponse r rest
    | none => none
  | .ref "util.unauthorized()" => some .unauthorized
  | .toJson (.ref "ctx.result.items[0]") =>
    match r.items with
    | [] => none
    | x :: _ => some (.returnedItem x)
  | .toJson .nul => some .returnedNull
  | _ => none

/-- The execution context a request program runs against: the
denied-field flag and the runtime value of each VTL reference path
(`none` models a null value). -/
structure RequestCtx where
  deniedField : Bool
  refValue : String → Option String

/-- Outcome of a request program run: a local null return (denied field),
a bare local `#return` (short-circuit, no remote lookup), or an issued
remote request carrying the built `GetRequest` entries. -/
inductive RequestOutcome where
  | returnNull
  | returnEarly
  | issuedQuery (request : List (String × Expression))

/-- Drops an expected prefix from a character list, or fails. -/
def dropPrefixChars : List Char → List Char → Option (List Char)
  | [], cs => some cs
  | _ :: _, [] => none
  | p :: ps, c :: cs => if c = p then dropPrefixChars ps cs else none

/-- Drops a trailing closing parenthesis from a character list, or
fails. -/
def dropSuffixParen (cs : List Char) : Option (List Char) :=
  match cs.reverse with
  | ')' :: rest => some rest.reverse
  | _ => none

/-- Parses a raw `$util.isNull($<path>)` VTL fragment, yielding the
reference path. -/
def parseIsNullRaw (t : String) : Option String :=
  match dropPrefixChars "$util.isNull($".data t.data with
  | some cs =>
    match dropSuffixParen cs with
    | some path => some (String.mk path)
    | none => none
  | none => none

/-- Runtime truth value of one null-check operand of the request
short-circuit disjunction: `$util.isNull($partitionKeyValue)` against the
bound partition-key value, or a raw `$util.isNull($ctx.source.<f>)`
fragment against the reference environment. -/
def evalKeyNullCheck (ctx : RequestCtx) (partitionKeyValue : Option String) :
    Expression → Option Bool
  | .methodCall (.ref "util.isNull") [.ref "partitionKeyValue"] =>
    some partitionKeyValue.isNone
  | .raw t => (parseIsNullRaw t).map (fun p => (ctx.refValue p).isNone)
  | _ => none

/-- Runtime truth value of the request short-circuit disjunction. -/
def evalOrList (ctx : RequestCtx) (partitionKeyValue : Option String) :
    List Expression → Option Bool
  | [] => some false
  | e :: rest =>
    match evalKeyNullCheck ctx partitionKeyValue e, evalOrList ctx partitionKeyValue rest with
    | some b, some c => some (b || c)
    | _, _ => none

/-- Runs the statements of the remote-request branch, accumulating the
`GetRequest` entries: the initial object, the `query` put, the guarded
auth-filter put, and the final `$util.toJson($GetRequest)` emission. -/
def evalRequestBodyStmts (ctx : RequestCtx) (getRequest : List (String × Expression)) :
    List Expression → Option RequestOutcome
  | [] => none
  | stmt :: rest =>
    match stmt with
    | .set (.ref "GetRequest") (.obj base) => evalRequestBodyStmts ctx base rest
    | .qref (.methodCall (.ref "GetRequest.put") [.str key, value]) =>
      evalRequestBodyStmts ctx (getRequest ++ [(key, value)]) rest
    | .iff (.not (.isNullOrEmpty (.ref p))) body =>
      let nullOrEmpty := match ctx.refValue p with
        | none => true
        | some s => s.isEmpty
      if nullOrEmpty then evalRequestBodyStmts ctx getRequest rest
      else
        match body with
        | .qref (.methodCall (.ref "GetRequest.put") [.str key, value]) =>
          evalRequestBodyStmts ctx (getRequest ++ [(key, value)]) rest
        | _ => none
    | .toJson (.ref "GetRequest") => some (.issuedQuery getRequest)
    | _ => none

/-- Runs the top-level statements of a request program: the denied-field
guard, the partition-key-value binding, and the short-circuit /
remote-request conditional. -/
def evalRequestStmts (ctx : RequestCtx) (partitionKeyValue : Option String) :
    List Expression → Option RequestOutcome
  | [] => none
  | stmt :: rest =>
    match stmt with
    | .iff (.ref "ctx.stash.deniedField") (.raw "#return($util.toJson(null))") =>
      if ctx.deniedField then some .returnNull else evalRequestStmts ctx partitionKeyValue rest
    | .set (.ref "partitionKeyValue")
        (.methodCall (.ref "util.defaultIfNull") [.ref a, .ref b]) =>
      evalRequestStmts ctx ((ctx.refValue a).orElse (fun _ => ctx.refValue b)) rest
    | .ifElse (.or conds) (.raw "#return") (.compoundExpression bodyStmts) =>
      match evalOrList ctx partitionKeyValue conds with
      | some true => some .returnEarly
      | some false => evalRequestBodyStmts ctx [] bodyStmts
      | none => none
    | _ => none

/-- Runtime outcome of a request program over an execution context. -/
def evalRequest (ctx : RequestCtx) : Expression → Option RequestOutcome
  | .compoundExpression stmts => evalRequestStmts ctx none stmts
  | _ => none

/-! ## Secondary-index reconciliation

`updateTableForConnection` (resolvers.ts:190-256), `appendIndex`
(resolvers.ts:258-265) and
`getConnectedSortKeyAttributeDefinitionsForImplicitHasManyObject`
(resolvers.ts:272-296), over an explicit table model holding both the
declarative (L2) and raw (L1) index lists. -/

/-- A key attribute as passed to `addGlobalSecondaryIndex`: attribute name
plus its `"S"`/`"N"` attribute type. -/
structure KeyAttribute where
  name : String
  type : String
  deriving DecidableEq, Repr

/-- One entry of the table's declarative (L2) global-secondary-index
list: index name, key schema and projection type. -/
structure GlobalSecondaryIndexEntry where
  indexName : String
  keySchema : List KeySchemaElement
  projectionType : String
  deriving DecidableEq, Repr

/-- One entry of the table's raw (L1, `cfnTable`) global-secondary-index
list: index name, key schema and projection type. -/
structure CfnGlobalSecondaryIndex where
  indexName : String
  keySchema : List KeySchemaElement
  projectionType : String
  deriving DecidableEq, Repr

/-- The table model the reconciler mutates: the declarative (L2) index
list and the raw (L1) index list of the underlying `cfnTable` (`none`
when the raw property is not yet an array). -/
structure TableModel where
  globalSecondaryIndexes : List GlobalSecondaryIndexEntry
  cfnGlobalSecondaryIndexes : Option (List CfnGlobalSecondaryIndex)
  deriving DecidableEq, Repr

/-- Modelled collaborator (CDK `Table.addGlobalSecondaryIndex`): the key
schema of a new index is the HASH partition key followed by the RANGE
sort key when one is given. -/
def buildIndexKeySchema (partitionKey : KeyAttribute) (sortKey : Option KeyAttribute) :
    List KeySchemaElement :=
  ⟨partitionKey.name, "HASH"⟩ ::
    (match sortKey with
     | some sk => [⟨sk.name, "RANGE"⟩]
     | none => [])

/-- Modelled collaborator (CDK `Table.addGlobalSecondaryIndex`): appends
the new index entry to the table's declarative index list. -/
def addGlobalSecondaryIndex (table : TableModel) (indexName : String)
    (partitionKey : KeyAttribute) (sortKey : Option KeyAttribute) : TableModel :=
  { table with
    globalSecondaryIndexes :=
      table.globalSecondaryIndexes ++
        [⟨indexName, buildIndexKeySchema partitionKey sortKey, "ALL"⟩] }

/-- The `@hasMany` directive configuration slice consumed by
`updateTableForConnection`: explicit key fields, optional explicit index
name, and the source object and field. -/
structure HasManyDirectiveConfiguration where
  fields : List String
  indexName : Option String
  object : ObjectTypeDefinitionNode
  field : FieldDefinitionNode
  deriving DecidableEq, Repr

/-- The transformer-context slice read by the reconciler: model-name
mapping, the respect-primary-key-attribute-types transform parameter, the
connection attribute naming scheme, attribute-type inference and the sort
key fields of an object (schema registry collaborators, spec §6). -/
structure ReconcilerCtx where
  getModelNameMapping : String → String
  respectPrimaryKeyAttributesOnConnectionField : Bool
  getConnectionAttributeName : String → String → String → String
  attributeTypeFromType : TypeNode → String
  getSortKeyFields : ObjectTypeDefinitionNode → List FieldDefinitionNode

/-- Modelled from the spec: `getObjectPrimaryKey` of the relational
transformer's `utils` (not under `src/`); the object's primary-key field
is the field annotated `@primaryKey`, defaulting to the field named
`id`. -/
def getObjectPrimaryKey (object : ObjectTypeDefinitionNode) : FieldDefinitionNode :=
  match object.fields.find? (fun f => f.directives.any (fun d => d.name == "primaryKey")) with
  | some f => f
  | none => (object.fields.find? (fun f => f.name == "id")).getD ⟨"id", .nonNull (.named "ID"), []⟩

/-- The sort-key attribute definitions derived for an implicit `@hasMany`
index: attribute name and `"S"`/`"N"` type. -/
structure SortKeyAttributeDefinitions where
  sortKeyName : String
  sortKeyType : String
  deriving DecidableEq, Repr

/-- `getConnectedSortKeyAttributeDefinitionsForImplicitHasManyObject`
(resolvers.ts:272-296): maps the source object's sort-key fields to
connection attribute names, keeping a single name as-is and condensing
two or more into one composite string-typed attribute. -/
def getConnectedSortKeyAttributeDefinitionsForImplicitHasManyObject (ctx : ReconcilerCtx)
    (object : ObjectTypeDefinitionNode) (hasManyField : FieldDefinitionNode) :
    Option SortKeyAttributeDefinitions :=
  let sortKeyFields := ctx.getSortKeyFields object
  if sortKeyFields.isEmpty then none
  else
    let mappedObjectName := ctx.getModelNameMapping object.name
    let connectedSortKeyFieldNames := sortKeyFields.map
      (fun sortKeyField =>
        ctx.getConnectionAttributeName mappedObjectName hasManyField.name sortKeyField.name)
    if connectedSortKeyFieldNames.length == 1 then
      match sortKeyFields with
      | f :: _ => some ⟨connectedSortKeyFieldNames.headD "", ctx.attributeTypeFromType f.type⟩
      | [] => none
    else if sortKeyFields.length > 1 then
      some ⟨condenseRangeKey connectedSortKeyFieldNames, "S"⟩
    else none

/-- `appendIndex` (resolvers.ts:258-265): push onto an existing raw index
array, or start a fresh one-element array when the property was not an
array. -/
def appendIndex (l : Option (List CfnGlobalSecondaryIndex)) (newIndex : CfnGlobalSecondaryIndex) :
    List CfnGlobalSecondaryIndex :=
  match l with
  | some xs => xs ++ [newIndex]
  | none => [newIndex]

/-- JavaScript truthiness of the optional `indexName` string: absent and
empty strings are falsy. -/
def jsTruthyString : Option String → Bool
  | none => false
  | some s => s != ""

/-- The index name derived for an implicit `@hasMany` connection
(resolvers.ts:203): `gsi-<mappedObjectName>.<fieldName>`. -/
def derivedIndexName (ctx : ReconcilerCtx) (config : HasManyDirectiveConfiguration) : String :=
  "gsi-" ++ ctx.getModelNameMapping config.object.name ++ "." ++ config.field.name

/-- `updateTableForConnection` (resolvers.ts:190-256): no-op when an index
name or explicit fields are given; otherwise derive the index name,
record it on the configuration, return if an index of that name exists,
and else add the new GSI to the declarative list and mirror it (same name
and key schema) into the raw list. -/
def updateTableForConnection (ctx : ReconcilerCtx) (config : HasManyDirectiveConfiguration)
    (table : TableModel) : HasManyDirectiveConfiguration × TableModel :=
  if jsTruthyString config.indexName || decide (config.fields.length > 0) then (config, table)
  else
    let mappedObjectName := ctx.getModelNameMapping config.object.name
    let gsis := table.globalSecondaryIndexes
    let indexName := "gsi-" ++ mappedObjectName ++ "." ++ config.field.name
    let config := { config with indexName := some indexName }
    if gsis.any (fun gsi => gsi.indexName == indexName) then (config, table)
    else
      let respectPrimaryKeyAttributesOnConnectionField :=
        ctx.respectPrimaryKeyAttributesOnConnectionField
      let partitionKeyName := ctx.getConnectionAttributeName mappedObjectName config.field.name
        (getObjectPrimaryKey config.object).name
      let partitionKeyType :=
        if respectPrimaryKeyAttributesOnConnectionField then
          ctx.attributeTypeFromType (getObjectPrimaryKey config.object).type
        else "S"
      let sortKeyAttributeDefinitions :=
        if respectPrimaryKeyAttributesOnConnectionField then
          getConnectedSortKeyAttributeDefinitionsForImplicitHasManyObject ctx config.object
            config.field
        else none
      let table := addGlobalSecondaryIndex table indexName ⟨partitionKeyName, partitionKeyType⟩
        (sortKeyAttributeDefinitions.map (fun sk => ⟨sk.sortKeyName, sk.sortKeyType⟩))
      let gsi := table.globalSecondaryIndexes.find? (fun gsi => gsi.indexName == indexName)
      let cfnList := appendIndex table.cfnGlobalSecondaryIndexes
        ⟨indexName, (gsi.map (fun g => g.keySchema)).getD [], "ALL"⟩
      (config, { table with cfnGlobalSecondaryIndexes := some cfnList })

/-- The L1/L2 pairwise-consistency invariant: every declarative index
entry has a raw entry of identical name and key schema. -/
def l1l2Consistent (table : TableModel) : Bool :=
  table.globalSecondaryIndexes.all (fun g =>
    (table.cfnGlobalSecondaryIndexes.getD []).any (fun r =>
      r.indexName == g.indexName && r.keySchema == g.keySchema))

/-! ## Primary-key directive validation

The `PrimaryKeyTransformer` schema-visit phase: the `field` visitor
(primary-key-transformer lines 199-222), `validate` (lines 267-334) and
`generateResolvers` (lines 250-256).  Validation failures are
`InvalidDirectiveError` values distinguished, as in the source, by their
message text; the inductive below has one constructor per distinct
message shape, and `message` reproduces the exact thrown string. -/

/-- The `@primaryKey` directive configuration collected during the schema
visit: annotated object and field, the declared sort-key field names, and
the resolved sort-key field definitions filled in by `validate`. -/
structure PrimaryKeyDirectiveConfiguration where
  object : ObjectTypeDefinitionNode
  field : FieldDefinitionNode
  sortKeyFields : List String
  sortKey : List FieldDefinitionNode
  deriving DecidableEq, Repr

/-- The schema-context slice read by `validate`: the schema's enum type
names and, per object type, the field names consumed as owner `@auth`
fields. -/
structure ValidateCtx where
  enums : List String
  ownerAuthFields : String → List String

/-- The distinct `InvalidDirectiveError` shapes `validate` can throw, one
constructor per distinct message text. -/
inductive PKValidationError where
  | selfReference (objectName fieldName : String)
  | missingModelDirective
  | duplicatePrimaryKey (objectName : String)
  | mustReferenceNonNullFields (objectName : String)
  | invalidPrimaryKeyType (objectName fieldName : String)
  | unknownSortKeyField (objectName sortKeyFieldName : String)
  | invalidSortKeyType (objectName fieldName : String)
  | sortKeyOwnerConflict (sortKeyFieldName : String)
  deriving DecidableEq, Repr

/-- The exact message text of each validation failure, as thrown by the
source (`\x27` is the ASCII apostrophe). -/
def PKValidationError.message : PKValidationError → String
  | .selfReference objectName fieldName =>
    "@primaryKey field \x27" ++ fieldName ++ "\x27 cannot reference itself on type \x27" ++
      objectName ++ "\x27."
  | .missingModelDirective =>
    "The @primaryKey directive may only be added to object definitions annotated with @model."
  | .duplicatePrimaryKey objectName =>
    "You may only supply one primary key on type \x27" ++ objectName ++ "\x27."
  | .mustReferenceNonNullFields objectName =>
    "The primary key on type \x27" ++ objectName ++ "\x27 must reference non-null fields."
  | .invalidPrimaryKeyType objectName fieldName =>
    "The primary key on type \x27" ++ objectName ++ "." ++ fieldName ++
      "\x27 cannot be a non-scalar."
  | .unknownSortKeyField objectName sortKeyFieldName =>
    "Can\x27t find field \x27" ++ sortKeyFieldName ++ "\x27 in " ++ objectName ++
      ", but it was specified in the primary key."
  | .invalidSortKeyType objectName fieldName =>
    "The primary key\x27s sort key on type \x27" ++ objectName ++ "." ++ fieldName ++
      "\x27 cannot be a non-scalar."
  | .sortKeyOwnerConflict sortKeyFieldName =>
    "The primary key\x27s sort key type \x27" ++ sortKeyFieldName ++
      "\x27 cannot be used as an owner @auth field too. Please use another field for the sort key."

/-- Modelled from the spec: `validateNotSelfReferencing` of the
transformer `utils` (not under `src/`); the declared sort-key field names
must not contain the primary field's own name (spec §3 invariant). -/
def validateNotSelfReferencing (config : PrimaryKeyDirectiveConfiguration) : Bool :=
  !(config.sortKeyFields.contains config.field.name)

/-- Modelled from the spec: `validateNotOwnerAuth` of the transformer
`utils` (not under `src/`); a sort-key field name passes when it is not
consumed as an owner `@auth` field on the same type. -/
def validateNotOwnerAuth (sortKeyFieldName : String)
    (config : PrimaryKeyDirectiveConfiguration) (ctx : ValidateCtx) : Bool :=
  !((ctx.ownerAuthFields config.object.name).contains sortKeyFieldName)

/-- The per-sort-key-field checks of `validate` (primary-key-transformer
lines 308-334), run left to right with the first failure winning:
resolve the name, reject non-scalar/list types, reject nullable types,
reject owner-auth conflicts, and accumulate the resolved fields. -/
def validateSortKeyFields (config : PrimaryKeyDirectiveConfiguration) (ctx : ValidateCtx)
    (fieldMap : String → Option FieldDefinitionNode) :
    List String → Except PKValidationError (List FieldDefinitionNode)
  | [] => .ok []
  | sortKeyFieldName :: rest =>
    match fieldMap sortKeyFieldName with
    | none => .error (.unknownSortKeyField config.object.name sortKeyFieldName)
    | some sortField =>
      if !isScalarOrEnum sortField.type ctx.enums || isListType sortField.type then
        .error (.invalidSortKeyType config.object.name sortField.name)
      else if !isNonNullType sortField.type then
        .error (.mustReferenceNonNullFields config.object.name)
      else if !validateNotOwnerAuth sortKeyFieldName config ctx then
        .error (.sortKeyOwnerConflict sortKeyFieldName)
      else
        match validateSortKeyFields config ctx fieldMap rest with
        | .error e => .error e
        | .ok fieldsTail => .ok (sortField :: fieldsTail)

/-- `validate` (primary-key-transformer lines 267-334): self-reference
check, `@model` presence, single primary key per type, non-null
scalar-or-enum non-list primary key, then the per-sort-key-field checks;
on success the configuration with the resolved sort-key fields. -/
def validate (config : PrimaryKeyDirectiveConfiguration) (ctx : ValidateCtx) :
    Except PKValidationError PrimaryKeyDirectiveConfiguration :=
  if !validateNotSelfReferencing config then
    .error (.selfReference config.object.name config.field.name)
  else if !(config.object.directives.any (fun directive => directive.name == "model")) then
    .error .missingModelDirective
  else if config.object.fields.any (fun objectField =>
      decide (objectField ≠ config.field) &&
        objectField.directives.any (fun directive => directive.name == "primaryKey")) then
    .error (.duplicatePrimaryKey config.object.name)
  else if !isNonNullType config.field.type then
    .error (.mustReferenceNonNullFields config.object.name)
  else if !isScalarOrEnum config.field.type ctx.enums || isListType config.field.type then
    .error (.invalidPrimaryKeyType config.object.name config.field.name)
  else
    match validateSortKeyFields config ctx
        (fun name => config.object.fields.find? (fun f => f.name == name))
        config.sortKeyFields with
    | .error e => .error e
    | .ok sortKey => .ok { config with sortKey := sortKey }

/-- The raw `sortKeyFields` directive argument before normalization:
absent, a single string, or a list of strings. -/
inductive SortKeyFieldsArg where
  | missing
  | single (s : String)
  | many (l : List String)
  deriving DecidableEq, Repr

/-- The argument normalization of the `field` visitor
(primary-key-transformer lines 212-216): an absent argument becomes the
empty list and a single string is wrapped into a one-element list. -/
def normalizeSortKeyFields : SortKeyFieldsArg → List String
  | .missing => []
  | .single s => [s]
  | .many l => l

/-- The `field` visitor of `PrimaryKeyTransformer` (primary-key-transformer
lines 199-222): build the configuration from the directive arguments,
validate it, and only on success append it to the transformer's directive
list. -/
def fieldVisit (parent : ObjectTypeDefinitionNode) (definition : FieldDefinitionNode)
    (arg : SortKeyFieldsArg) (ctx : ValidateCtx)
    (directiveList : List PrimaryKeyDirectiveConfiguration) :
    Except PKValidationError (List PrimaryKeyDirectiveConfiguration) :=
  let args : PrimaryKeyDirectiveConfiguration :=
    { object := parent, field := definition, sortKeyFields := normalizeSortKeyFields arg,
      sortKey := [] }
  match validate args ctx with
  | .error e => .error e
  | .ok validated => .ok (directiveList ++ [validated])

/-- A generated resolver-program batch, keyed by the configuration's type
and field names plus the dispatched datasource kind. -/
structure GeneratedProgramBatch where
  typeName : String
  fieldName : String
  dbType : String
  deriving DecidableEq, Repr

/-- `generateResolvers` of `PrimaryKeyTransformer` (primary-key-transformer
lines 250-256): one generated batch per recorded directive configuration,
dispatched on the declared datasource engine of the target type. -/
def generateResolvers (dbTypeOf : String → String)
    (directiveList : List PrimaryKeyDirectiveConfiguration) : List GeneratedProgramBatch :=
  directiveList.map (fun config =>
    ⟨config.object.name, config.field.name, dbTypeOf config.object.name⟩)

/-! ## Theorems -/

/-- C10: `makeGetItemConnectionWithKeyResolver` fails with an error (and
registers no resolver, leaving the resolver registry unchanged) whenever
the configuration's `relatedTypeIndex` list is empty. -/
theorem c10_empty_related_type_index_throws (ctx : SynthCtx)
    (config : HasOneDirectiveConfiguration) (registry : List ResolverProgramPair)
    (h : config.relatedTypeIndex = []) :
    makeGetItemConnectionWithKeyResolver ctx config =
      .error "Expected relatedType index fields to be set for connection." ∧
    registerConnectionResolver ctx config registry =
      .error "Expected relatedType index fields to be set for connection." := by
  have hm : makeGetItemConnectionWithKeyResolver ctx config =
      .error "Expected relatedType index fields to be set for connection." := by
    unfold makeGetItemConnectionWithKeyResolver
    simp [h]
  refine ⟨hm, ?_⟩
  unfold registerConnectionResolver
  rw [hm]

/-- Witness for C10 at a concrete configuration with an empty
`relatedTypeIndex`. -/
theorem c10_empty_related_type_index_throws_witness :
    makeGetItemConnectionWithKeyResolver ⟨[], ⟨"Post", [], []⟩⟩
      ⟨⟨"Post", [], []⟩, ⟨"author", .named "Author", []⟩, [], ["authorId"], []⟩ =
      .error "Expected relatedType index fields to be set for connection." :=
  (c10_empty_related_type_index_throws ⟨[], ⟨"Post", [], []⟩⟩
    ⟨⟨"Post", [], []⟩, ⟨"author", .named "Author", []⟩, [], ["authorId"], []⟩ [] rfl).1

/-- C8: for a relation configuration that names an index or lists explicit
key fields, `updateTableForConnection` returns early and the table (both
the declarative and the raw index list) is unchanged. -/
theorem c8_explicit_index_or_fields_noop (ctx : ReconcilerCtx)
    (config : HasManyDirectiveConfiguration) (table : TableModel)
    (h : jsTruthyString config.indexName = true ∨ config.fields ≠ []) :
    updateTableForConnection ctx config table = (config, table) := by
  unfold updateTableForConnection
  rcases h with h | h
  · simp [h]
  · have : 0 < config.fields.length := List.length_pos.mpr h
    simp [this]

/-- Witness for C8 at a configuration with an explicit index name. -/
theorem c8_explicit_index_or_fields_noop_witness :
    updateTableForConnection
      ⟨id, false, fun _ _ k => k, fun _ => "S", fun _ => []⟩
      ⟨[], some "byOwner", ⟨"Post", [], []⟩, ⟨"comments", .named "Comment", []⟩⟩
      ⟨[], none⟩ =
      (⟨[], some "byOwner", ⟨"Post", [], []⟩, ⟨"comments", .named "Comment", []⟩⟩,
       ⟨[], none⟩) :=
  c8_explicit_index_or_fields_noop _ _ _ (Or.inl rfl)

/-- Every successfully synthesized singular-connection pair carries the
fixed response program of resolvers.ts:161-176. -/
theorem responseProgram_of_ok (ctx : SynthCtx) (config : HasOneDirectiveConfiguration)
    (pair : ResolverProgramPair)
    (h : makeGetItemConnectionWithKeyResolver ctx config = .ok pair) :
    pair.responseProgram = connectionResponseProgram := by
  unfold makeGetItemConnectionWithKeyResolver at h
  split at h
  · exact absurd h (by simp)
  · simp only [Except.ok.injEq] at h
    rw [← h]

/-- C1: for every singular-connection resolver synthesized by
`makeGetItemConnectionWithKeyResolver`, the response program distinguishes
exactly three outcomes: a non-empty item list with scanned count 1 returns
the single item, an empty item list with scanned count 1 raises
unauthorized, and every other result shape returns null. -/
theorem c1_response_three_outcomes (ctx : SynthCtx) (config : HasOneDirectiveConfiguration)
    (pair : ResolverProgramPair)
    (h : makeGetItemConnectionWithKeyResolver ctx config = .ok pair) (r : QueryResult) :
    (∀ x xs, r.items = x :: xs → r.scannedCount = 1 →
      evalResponse r pair.responseProgram = some (.returnedItem x)) ∧
    (r.items = [] → r.scannedCount = 1 →
      evalResponse r pair.responseProgram = some .unauthorized) ∧
    (r.scannedCount ≠ 1 →
      evalResponse r pair.responseProgram = some .returnedNull) := by
  rw [responseProgram_of_ok ctx config pair h]
  refine ⟨?_, ?_, ?_⟩
  · intro x xs hitems hscan
    simp [connectionResponseProgram, evalResponse, evalResultBool, hitems, hscan]
  · intro hitems hscan
    simp [connectionResponseProgram, evalResponse, evalResultBool, hitems, hscan]
  · intro hscan
    have hbeq : (r.scannedCount == 1) = false := beq_eq_false_iff_ne.mpr hscan
    cases hi : r.items with
    | nil => simp [connectionResponseProgram, evalResponse, evalResultBool, hi, hbeq]
    | cons x xs => simp [connectionResponseProgram, evalResponse, evalResultBool, hi, hbeq]

/-- Witness for C1: a concrete synthesized resolver evaluated at the three
result shapes. -/
theorem c1_response_three_outcomes_witness :
    evalResponse ⟨["item0"], 1⟩
      ((makeGetItemConnectionWithKeyResolver
        ⟨[⟨"id", "HASH"⟩], ⟨"Post", [⟨"authorId", .nonNull (.named "ID"), []⟩], []⟩⟩
        ⟨⟨"Post", [⟨"authorId", .nonNull (.named "ID"), []⟩], []⟩,
         ⟨"author", .named "Author", []⟩, [], ["authorId"], ["id"]⟩).toOption.getD
        ⟨"", "", .nul, .nul⟩).responseProgram = some (.returnedItem "item0") :=
  (c1_response_three_outcomes
    ⟨[⟨"id", "HASH"⟩], ⟨"Post", [⟨"authorId", .nonNull (.named "ID"), []⟩], []⟩⟩
    ⟨⟨"Post", [⟨"authorId", .nonNull (.named "ID"), []⟩], []⟩,
     ⟨"author", .named "Author", []⟩, [], ["authorId"], ["id"]⟩
    _ rfl ⟨["item0"], 1⟩).1 "item0" [] rfl rfl

/-- C4: key-condensation agreement.  For two or more sort-key fields, the
composite sort-key attribute name computed during index reconciliation is
the fixed-separator join (`condenseRangeKey`) of the connected field
names, and the runtime composite sort-key value emitted by the
synthesizer is the same fixed-separator join of the
`$\x7bctx.source.<field>\x7d` placeholders, so the two agree modulo
substituting field values for field names. -/
theorem c4_key_condensation_agreement (ctx : ReconcilerCtx)
    (object : ObjectTypeDefinitionNode) (hasManyField : FieldDefinitionNode)
    (h : 2 ≤ (ctx.getSortKeyFields object).length) :
    (getConnectedSortKeyAttributeDefinitionsForImplicitHasManyObject ctx object
        hasManyField).map (fun d => d.sortKeyName) =
      some (String.intercalate ModelCompositeKeySeparator
        ((ctx.getSortKeyFields object).map (fun sortKeyField =>
          ctx.getConnectionAttributeName (ctx.getModelNameMapping object.name)
            hasManyField.name sortKeyField.name))) ∧
    ∀ rangeKeyFields : List String,
      condensedSortKeyValue rangeKeyFields =
        String.intercalate ModelCompositeKeySeparator
          (rangeKeyFields.map (fun keyField => "$\x7bctx.source." ++ keyField ++ "\x7d")) := by
  constructor
  · have hne : (ctx.getSortKeyFields object).isEmpty = false := by
      cases hl : ctx.getSortKeyFields object with
      | nil => rw [hl] at h; simp at h
      | cons a t => simp
    have hlen1 : ((ctx.getSortKeyFields object).length == 1) = false := by
      have : (ctx.getSortKeyFields object).length ≠ 1 := by omega
      exact beq_eq_false_iff_ne.mpr this
    have hgt : 1 < (ctx.getSortKeyFields object).length := by omega
    unfold getConnectedSortKeyAttributeDefinitionsForImplicitHasManyObject
    simp only [hne, Bool.false_eq_true, if_false, List.length_map, hlen1, hgt, if_true]
    simp [condenseRangeKey]
  · intro rangeKeyFields
    rfl

/-- Witness for C4 at a two-field sort key. -/
theorem c4_key_condensation_agreement_witness :
    (getConnectedSortKeyAttributeDefinitionsForImplicitHasManyObject
        ⟨id, true, fun _ _ k => k, fun _ => "S",
         fun _ => [⟨"createdAt", .nonNull (.named "String"), []⟩,
                   ⟨"rating", .nonNull (.named "Int"), []⟩]⟩
        ⟨"Post", [], []⟩ ⟨"comments", .named "Comment", []⟩).map
        (fun d => d.sortKeyName) =
      some ("createdAt" ++ ModelCompositeKeySeparator ++ "rating") :=
  (c4_key_condensation_agreement
    ⟨id, true, fun _ _ k => k, fun _ => "S",
     fun _ => [⟨"createdAt", .nonNull (.named "String"), []⟩,
               ⟨"rating", .nonNull (.named "Int"), []⟩]⟩
    ⟨"Post", [], []⟩ ⟨"comments", .named "Comment", []⟩ (by decide)).1

/-- The per-sort-key-field checks never produce the duplicate-primary-key
failure. -/
theorem validateSortKeyFields_ne_duplicate (config : PrimaryKeyDirectiveConfiguration)
    (ctx : ValidateCtx) (fieldMap : String → Option FieldDefinitionNode)
    (names : List String) (o : String) :
    validateSortKeyFields config ctx fieldMap names ≠
      .error (.duplicatePrimaryKey o) := by
  induction names with
  | nil => simp [validateSortKeyFields]
  | cons n rest ih =>
    unfold validateSortKeyFields
    cases fieldMap n with
    | none => simp
    | some sortField =>
      simp only
      split
      · simp
      · split
        · simp
        · split
          · simp
          · cases hrec : validateSortKeyFields config ctx fieldMap rest with
            | error e =>
              simp only [hrec]
              intro hcontra
              exact ih (hrec.trans (by injection hcontra with h; rw [h]))
            | ok tail => simp [hrec]

/-- C7: a second `@primaryKey` directive on a different field of the same
type makes `validate` raise the duplicate-primary-key failure (given the
earlier self-reference and `@model` checks pass), while with the annotated
field as the only carrier of the directive `validate` never returns that
failure. -/
theorem c7_duplicate_primary_key (config : PrimaryKeyDirectiveConfiguration)
    (ctx : ValidateCtx) :
    (validateNotSelfReferencing config = true →
     config.object.directives.any (fun d => d.name == "model") = true →
     config.object.fields.any (fun objectField =>
       decide (objectField ≠ config.field) &&
         objectField.directives.any (fun d => d.name == "primaryKey")) = true →
     validate config ctx = .error (.duplicatePrimaryKey config.object.name)) ∧
    (config.object.fields.any (fun objectField =>
       decide (objectField ≠ config.field) &&
         objectField.directives.any (fun d => d.name == "primaryKey")) = false →
     ∀ o, validate config ctx ≠ .error (.duplicatePrimaryKey o)) := by
  constructor
  · intro hself hmodel hdup
    unfold validate
    rw [hself, hdup, hmodel]
    rfl
  · intro hnodup o
    unfold validate
    split
    · simp
    · split
      · simp
      · split
        · rename_i hdup
          rw [hnodup] at hdup
          exact absurd hdup (by simp)
        · split
          · simp
          · split
            · simp
            · cases hrec : validateSortKeyFields config ctx
                  (fun name => config.object.fields.find? (fun f => f.name == name))
                  config.sortKeyFields with
              | error e =>
                simp only [hrec]
                intro hcontra
                exact validateSortKeyFields_ne_duplicate config ctx _ _ o
                  (hrec.trans (by injection hcontra with h; rw [h]))
              | ok tail => simp [hrec]

/-- Witness for C7: a type with two `@primaryKey`-annotated fields raises
the duplicate failure. -/
theorem c7_duplicate_primary_key_witness :
    validate
      ⟨⟨"Task", [⟨"id", .nonNull (.named "ID"), [⟨"primaryKey"⟩]⟩,
                 ⟨"title", .nonNull (.named "String"), [⟨"primaryKey"⟩]⟩],
        [⟨"model"⟩]⟩,
       ⟨"id", .nonNull (.named "ID"), [⟨"primaryKey"⟩]⟩, [], []⟩
      ⟨[], fun _ => []⟩ = .error (.duplicatePrimaryKey "Task") :=
  (c7_duplicate_primary_key
    ⟨⟨"Task", [⟨"id", .nonNull (.named "ID"), [⟨"primaryKey"⟩]⟩,
               ⟨"title", .nonNull (.named "String"), [⟨"primaryKey"⟩]⟩],
      [⟨"model"⟩]⟩,
     ⟨"id", .nonNull (.named "ID"), [⟨"primaryKey"⟩]⟩, [], []⟩
    ⟨[], fun _ => []⟩).1 (by decide) (by decide) (by decide)

/-- C5: validation is fail-fast and atomic.  When `validate` rejects a
primary-key directive configuration (for example with the sort-key
owner-conflict failure), the `field` visitor re-raises the failure without
recording the configuration, so — the directive list having no entry for
that type and field — the later synthesis phase generates zero resolver
programs for it. -/
theorem c5_fail_fast_no_programs (parent : ObjectTypeDefinitionNode)
    (definition : FieldDefinitionNode) (arg : SortKeyFieldsArg) (ctx : ValidateCtx)
    (directiveList : List PrimaryKeyDirectiveConfiguration) (e : PKValidationError)
    (dbTypeOf : String → String)
    (hvalidate : validate ⟨parent, definition, normalizeSortKeyFields arg, []⟩ ctx = .error e)
    (hfresh : directiveList.all (fun c =>
      !(c.object.name == parent.name && c.field.name == definition.name)) = true) :
    fieldVisit parent definition arg ctx directiveList = .error e ∧
    (generateResolvers dbTypeOf directiveList).filter (fun p =>
      p.typeName == parent.name && p.fieldName == definition.name) = [] := by
  constructor
  · unfold fieldVisit
    simp only [hvalidate]
  · rw [List.filter_eq_nil_iff]
    intro batch hbatch
    simp only [generateResolvers, List.mem_map] at hbatch
    obtain ⟨c, hc, hbatcheq⟩ := hbatch
    have hb := List.all_eq_true.mp hfresh c hc
    rw [← hbatcheq]
    simp at hb ⊢
    tauto

/-- Witness for C5: a sort-key field simultaneously used as an owner
authorization field raises the sort-key owner-conflict failure and the
empty directive list yields zero programs. -/
theorem c5_fail_fast_no_programs_witness :
    fieldVisit
      ⟨"Task", [⟨"id", .nonNull (.named "ID"), [⟨"primaryKey"⟩]⟩,
                ⟨"owner", .nonNull (.named "String"), []⟩], [⟨"model"⟩]⟩
      ⟨"id", .nonNull (.named "ID"), [⟨"primaryKey"⟩]⟩ (.single "owner")
      ⟨[], fun _ => ["owner"]⟩ [] = .error (.sortKeyOwnerConflict "owner") ∧
    (generateResolvers (fun _ => "DDB") []).filter (fun p =>
      p.typeName == "Task" && p.fieldName == "id") = [] :=
  c5_fail_fast_no_programs
    ⟨"Task", [⟨"id", .nonNull (.named "ID"), [⟨"primaryKey"⟩]⟩,
              ⟨"owner", .nonNull (.named "String"), []⟩], [⟨"model"⟩]⟩
    ⟨"id", .nonNull (.named "ID"), [⟨"primaryKey"⟩]⟩ (.single "owner")
    ⟨[], fun _ => ["owner"]⟩ [] (.sortKeyOwnerConflict "owner") (fun _ => "DDB")
    rfl rfl

/-- C6 counterexample: a nullable (scalar, non-list) sort-key field does
NOT raise the sort-key-specific failure.  At a concrete configuration
whose sort key `title` has the nullable type `String`, `validate` raises
the generic must-reference-non-null-fields failure — whose message is
exactly the one a nullable primary key raises and differs from the
sort-key-specific `cannot be a non-scalar` message. -/
theorem c6_nullable_sort_key_counterexample :
    validate
      ⟨⟨"Post", [⟨"id", .nonNull (.named "ID"), [⟨"primaryKey"⟩]⟩,
                 ⟨"title", .named "String", []⟩], [⟨"model"⟩]⟩,
       ⟨"id", .nonNull (.named "ID"), [⟨"primaryKey"⟩]⟩, ["title"], []⟩
      ⟨[], fun _ => []⟩ = .error (.mustReferenceNonNullFields "Post") ∧
    PKValidationError.mustReferenceNonNullFields "Post" ≠
      PKValidationError.invalidSortKeyType "Post" "title" ∧
    (PKValidationError.mustReferenceNonNullFields "Post").message ≠
      (PKValidationError.invalidSortKeyType "Post" "title").message := by
  refine ⟨rfl, by simp, by decide⟩

/-- C6 (amended): a sort-key field that is a list type or not
scalar-or-enum raises the sort-key-specific `InvalidSortKeyType` failure,
while a nullable scalar-or-enum non-list sort-key field raises the
generic must-reference-non-null-fields failure (the same failure a
nullable primary key raises), not the sort-key-specific one. -/
theorem c6_sort_key_type_failures (config : PrimaryKeyDirectiveConfiguration)
    (ctx : ValidateCtx) (s : String) (sortField : FieldDefinitionNode)
    (hself : validateNotSelfReferencing config = true)
    (hmodel : config.object.directives.any (fun d => d.name == "model") = true)
    (hnodup : config.object.fields.any (fun objectField =>
      decide (objectField ≠ config.field) &&
        objectField.directives.any (fun d => d.name == "primaryKey")) = false)
    (hpknn : isNonNullType config.field.type = true)
    (hpkscalar : (!isScalarOrEnum config.field.type ctx.enums ||
      isListType config.field.type) = false)
    (hsort : config.sortKeyFields = [s])
    (hfind : config.object.fields.find? (fun f => f.name == s) = some sortField) :
    ((!isScalarOrEnum sortField.type ctx.enums || isListType sortField.type) = true →
      validate config ctx = .error (.invalidSortKeyType config.object.name sortField.name)) ∧
    ((!isScalarOrEnum sortField.type ctx.enums || isListType sortField.type) = false →
      isNonNullType sortField.type = false →
      validate config ctx = .error (.mustReferenceNonNullFields config.object.name)) := by
  have hbase : validate config ctx =
      match validateSortKeyFields config ctx
        (fun name => config.object.fields.find? (fun f => f.name == name))
        config.sortKeyFields with
      | .error e => .error e
      | .ok sortKey => .ok { config with sortKey := sortKey } := by
    unfold validate
    rw [hself, hmodel, hnodup, hpknn, hpkscalar]
    simp
  constructor
  · intro hbad
    rw [hbase, hsort]
    unfold validateSortKeyFields
    rw [hfind]
    simp only [hbad, Bool.true_eq_false, if_true]
  · intro hgood hnullable
    rw [hbase, hsort]
    unfold validateSortKeyFields
    rw [hfind]
    simp only [hgood, hnullable, Bool.false_eq_true, if_false, Bool.not_false,
      Bool.true_eq_false, if_true]

/-- Witness for the amended C6: a list-typed sort-key field at a concrete
configuration raises the sort-key-specific failure. -/
theorem c6_sort_key_type_failures_witness :
    validate
      ⟨⟨"Post", [⟨"id", .nonNull (.named "ID"), [⟨"primaryKey"⟩]⟩,
                 ⟨"tags", .nonNull (.listType (.nonNull (.named "String"))), []⟩],
        [⟨"model"⟩]⟩,
       ⟨"id", .nonNull (.named "ID"), [⟨"primaryKey"⟩]⟩, ["tags"], []⟩
      ⟨[], fun _ => []⟩ = .error (.invalidSortKeyType "Post" "tags") :=
  (c6_sort_key_type_failures
    ⟨⟨"Post", [⟨"id", .nonNull (.named "ID"), [⟨"primaryKey"⟩]⟩,
               ⟨"tags", .nonNull (.listType (.nonNull (.named "String"))), []⟩],
      [⟨"model"⟩]⟩,
     ⟨"id", .nonNull (.named "ID"), [⟨"primaryKey"⟩]⟩, ["tags"], []⟩
    ⟨[], fun _ => []⟩ "tags" ⟨"tags", .nonNull (.listType (.nonNull (.named "String"))), []⟩
    rfl rfl rfl rfl rfl rfl rfl).1 rfl

/-- Dropping a prefix that is literally present succeeds with the
remainder. -/
theorem dropPrefixChars_append (pre rest : List Char) :
    dropPrefixChars pre (pre ++ rest) = some rest := by
  induction pre with
  | nil => rfl
  | cons c cs ih => simp [dropPrefixChars, ih]

/-- Dropping the trailing parenthesis of `l ++ [')']` yields `l`. -/
theorem dropSuffixParen_append (l : List Char) :
    dropSuffixParen (l ++ [')']) = some l := by
  simp [dropSuffixParen, List.reverse_append]

/-- The raw `$util.isNull($ctx.source.<f>)` fragment parses back to its
reference path. -/
theorem parseIsNullRaw_source (f : String) :
    parseIsNullRaw ("$util.isNull($ctx.source." ++ f ++ ")") = some ("ctx.source." ++ f) := by
  have hdata : ("$util.isNull($ctx.source." ++ f ++ ")").data =
      "$util.isNull($".data ++ ("ctx.source.".data ++ f.data ++ [')']) := by
    simp [String.data_append]
  unfold parseIsNullRaw
  rw [hdata, dropPrefixChars_append]
  have h2 : dropSuffixParen ("ctx.source.".data ++ f.data ++ [')']) =
      some ("ctx.source.".data ++ f.data) := dropSuffixParen_append _
  simp only [h2]
  rfl

/-- The short-circuit disjunction over the mapped raw null checks of the
non-partition local fields evaluates to "some field's source value is
null". -/
theorem evalOrList_mapped_raws (ctx : RequestCtx) (pkv : Option String)
    (rest : List String) :
    evalOrList ctx pkv
        (rest.map (fun f => Expression.raw ("$util.isNull($ctx.source." ++ f ++ ")"))) =
      some (rest.any (fun f => (ctx.refValue ("ctx.source." ++ f)).isNone)) := by
  induction rest with
  | nil => rfl
  | cons f fs ih =>
    simp only [List.map_cons, List.any_cons]
    unfold evalOrList
    rw [ih]
    simp [evalKeyNullCheck, parseIsNullRaw_source]

/-- Evaluation of a synthesized request program with the denied-field
guard passed: the outcome is the bare local `#return` exactly when the
bound partition-key value (stash attribute defaulted to the source field)
is null or some remaining local field's source value is null; otherwise
the remote Query request is built and issued. -/
theorem evalRequest_connectionRequestProgram (ctx : RequestCtx) (f0 : String)
    (rest : List String) (es : List String) (ns vs : List (String × Expression))
    (hdenied : ctx.deniedField = false) :
    evalRequest ctx (connectionRequestProgram (f0 :: rest) es ns vs) =
      (if ((ctx.refValue ("ctx.stash.connectionAttibutes.get(\"" ++ f0 ++ "\")")).orElse
            (fun _ => ctx.refValue ("ctx.source." ++ f0))).isNone
          || rest.any (fun f => (ctx.refValue ("ctx.source." ++ f)).isNone) then
        some .returnEarly
      else
        some (.issuedQuery
          ([("version", .str "2018-05-29"), ("operation", .str "Query")] ++
           [("query", .obj [("expression", .str (String.intercalate " AND " es)),
                            ("expressionNames", .obj ns),
                            ("expressionValues", .obj vs)])] ++
           (if (match ctx.refValue "ctx.stash.authFilter" with
                | none => true
                | some s => s.isEmpty) then []
            else [("filter",
              .methodCall (.ref "util.parseJson")
                [.methodCall (.ref "util.transform.toDynamoDBFilterExpression")
                  [.ref "ctx.stash.authFilter"]])])))) := by
  unfold connectionRequestProgram evalRequest
  unfold evalRequestStmts
  rw [hdenied]
  simp only [Bool.false_eq_true, if_false, List.headD_cons, List.drop_one, List.tail_cons]
  unfold evalRequestStmts
  simp only
  unfold evalRequestStmts
  simp only
  unfold evalOrList
  rw [evalOrList_mapped_raws]
  simp only [evalKeyNullCheck]
  cases hnull : (((ctx.refValue ("ctx.stash.connectionAttibutes.get(\"" ++ f0 ++ "\")")).orElse
      (fun _ => ctx.refValue ("ctx.source." ++ f0))).isNone
        || rest.any (fun f => (ctx.refValue ("ctx.source." ++ f)).isNone)) with
  | true => simp
  | false =>
    simp only [Bool.false_eq_true, if_false]
    cases hf : ctx.refValue "ctx.stash.authFilter" with
    | none => simp [evalRequestBodyStmts, hf]
    | some s =>
      cases hs : s.isEmpty with
      | true => simp [evalRequestBodyStmts, hf, hs]
      | false => simp [evalRequestBodyStmts, hf, hs]

/-- Every successfully synthesized singular-connection pair carries a
request program of the fixed shape of resolvers.ts:113-160, over the
configuration's local fields. -/
theorem requestProgram_of_ok (ctx : SynthCtx) (config : HasOneDirectiveConfiguration)
    (pair : ResolverProgramPair)
    (h : makeGetItemConnectionWithKeyResolver ctx config = .ok pair) :
    ∃ es ns vs, pair.requestProgram = connectionRequestProgram
      (if config.fields.length > 0 then config.fields else config.connectionFields) es ns vs := by
  unfold makeGetItemConnectionWithKeyResolver at h
  by_cases hf : config.fields.length > 0
  · rw [if_pos hf] at h ⊢
    split at h
    · exact absurd h (by simp)
    · split at h
      · simp only [Except.ok.injEq] at h
        exact ⟨_, _, _, by rw [← h]⟩
      · split at h
        · simp only [Except.ok.injEq] at h
          exact ⟨_, _, _, by rw [← h]⟩
        · simp only [Except.ok.injEq] at h
          exact ⟨_, _, _, by rw [← h]⟩
  · rw [if_neg hf] at h ⊢
    split at h
    · exact absurd h (by simp)
    · split at h
      · simp only [Except.ok.injEq] at h
        exact ⟨_, _, _, by rw [← h]⟩
      · split at h
        · simp only [Except.ok.injEq] at h
          exact ⟨_, _, _, by rw [← h]⟩
        · simp only [Except.ok.injEq] at h
          exact ⟨_, _, _, by rw [← h]⟩

/-- C2 counterexample: a synthesized request program short-circuits even
though a relation field is non-null.  With local fields `a`, `b`, a
non-null source value for `a` and a null one for `b`, the program
evaluates to the bare local `#return` (no remote lookup), where the claim
predicts an issued remote Query request. -/
theorem c2_short_circuit_counterexample :
    makeGetItemConnectionWithKeyResolver
        ⟨[⟨"id", "HASH"⟩, ⟨"name", "RANGE"⟩],
         ⟨"Post", [⟨"a", .nonNull (.named "ID"), []⟩,
                   ⟨"b", .nonNull (.named "String"), []⟩], []⟩⟩
        ⟨⟨"Post", [⟨"a", .nonNull (.named "ID"), []⟩,
                   ⟨"b", .nonNull (.named "String"), []⟩], []⟩,
         ⟨"author", .named "Author", []⟩, [], ["a", "b"], ["pk", "sk"]⟩ =
      .ok ((makeGetItemConnectionWithKeyResolver
        ⟨[⟨"id", "HASH"⟩, ⟨"name", "RANGE"⟩],
         ⟨"Post", [⟨"a", .nonNull (.named "ID"), []⟩,
                   ⟨"b", .nonNull (.named "String"), []⟩], []⟩⟩
        ⟨⟨"Post", [⟨"a", .nonNull (.named "ID"), []⟩,
                   ⟨"b", .nonNull (.named "String"), []⟩], []⟩,
         ⟨"author", .named "Author", []⟩, [], ["a", "b"], ["pk", "sk"]⟩).toOption.getD
        ⟨"", "", .nul, .nul⟩) ∧
    evalRequest
        ⟨false, fun p => if p == "ctx.source.a" then some "va" else none⟩
        ((makeGetItemConnectionWithKeyResolver
          ⟨[⟨"id", "HASH"⟩, ⟨"name", "RANGE"⟩],
           ⟨"Post", [⟨"a", .nonNull (.named "ID"), []⟩,
                     ⟨"b", .nonNull (.named "String"), []⟩], []⟩⟩
          ⟨⟨"Post", [⟨"a", .nonNull (.named "ID"), []⟩,
                     ⟨"b", .nonNull (.named "String"), []⟩], []⟩,
           ⟨"author", .named "Author", []⟩, [], ["a", "b"], ["pk", "sk"]⟩).toOption.getD
          ⟨"", "", .nul, .nul⟩).requestProgram = some .returnEarly ∧
    (fun p => if p == "ctx.source.a" then some "va" else none : String → Option String)
      "ctx.source.a" = some "va" :=
  ⟨rfl, rfl, rfl⟩

/-- C2 (amended): a synthesized singular-connection request program (with
the denied-field guard passed) short-circuits to a bare local `#return`
exactly when the partition-key value — the stashed connection attribute
of the first local field defaulted to its source value — is null OR some
remaining local field's source value is null; when all of them are
non-null the remote Query request is built and issued. -/
theorem c2_short_circuit_condition (ctx : SynthCtx)
    (config : HasOneDirectiveConfiguration) (pair : ResolverProgramPair)
    (rctx : RequestCtx) (f0 : String) (rest : List String)
    (h : makeGetItemConnectionWithKeyResolver ctx config = .ok pair)
    (hfields : (if config.fields.length > 0 then config.fields
      else config.connectionFields) = f0 :: rest)
    (hdenied : rctx.deniedField = false) :
    (evalRequest rctx pair.requestProgram = some .returnEarly ↔
      (((rctx.refValue ("ctx.stash.connectionAttibutes.get(\"" ++ f0 ++ "\")")).orElse
          (fun _ => rctx.refValue ("ctx.source." ++ f0))).isNone
        || rest.any (fun f => (rctx.refValue ("ctx.source." ++ f)).isNone)) = true) ∧
    ((((rctx.refValue ("ctx.stash.connectionAttibutes.get(\"" ++ f0 ++ "\")")).orElse
          (fun _ => rctx.refValue ("ctx.source." ++ f0))).isNone
        || rest.any (fun f => (rctx.refValue ("ctx.source." ++ f)).isNone)) = false →
      ∃ req, evalRequest rctx pair.requestProgram = some (.issuedQuery req)) := by
  obtain ⟨es, ns, vs, hprog⟩ := requestProgram_of_ok ctx config pair h
  rw [hfields] at hprog
  rw [hprog, evalRequest_connectionRequestProgram rctx f0 rest es ns vs hdenied]
  constructor
  · constructor
    · intro heval
      by_contra hcond
      rw [Bool.not_eq_true] at hcond
      rw [hcond] at heval
      simp at heval
    · intro hcond
      rw [hcond]
      simp
  · intro hcond
    rw [hcond]
    simp

/-- Witness for the amended C2 at a concrete program and context with all
local key fields non-null: the remote request is issued. -/
theorem c2_short_circuit_condition_witness :
    ∃ req, evalRequest
      ⟨false, fun p => if p == "ctx.source.a" || p == "ctx.source.b"
        then some "v" else none⟩
      ((makeGetItemConnectionWithKeyResolver
        ⟨[⟨"id", "HASH"⟩, ⟨"name", "RANGE"⟩],
         ⟨"Post", [⟨"a", .nonNull (.named "ID"), []⟩,
                   ⟨"b", .nonNull (.named "String"), []⟩], []⟩⟩
        ⟨⟨"Post", [⟨"a", .nonNull (.named "ID"), []⟩,
                   ⟨"b", .nonNull (.named "String"), []⟩], []⟩,
         ⟨"author", .named "Author", []⟩, [], ["a", "b"], ["pk", "sk"]⟩).toOption.getD
        ⟨"", "", .nul, .nul⟩).requestProgram = some (.issuedQuery req) :=
  (c2_short_circuit_condition
    ⟨[⟨"id", "HASH"⟩, ⟨"name", "RANGE"⟩],
     ⟨"Post", [⟨"a", .nonNull (.named "ID"), []⟩,
               ⟨"b", .nonNull (.named "String"), []⟩], []⟩⟩
    ⟨⟨"Post", [⟨"a", .nonNull (.named "ID"), []⟩,
               ⟨"b", .nonNull (.named "String"), []⟩], []⟩,
     ⟨"author", .named "Author", []⟩, [], ["a", "b"], ["pk", "sk"]⟩
    _ ⟨false, fun p => if p == "ctx.source.a" || p == "ctx.source.b"
        then some "v" else none⟩ "a" ["b"] rfl rfl rfl).2 rfl

/-- The derived GSI name is never the empty string, so once recorded on
the configuration it is truthy. -/
theorem derivedIndexName_ne_empty (m f : String) : ("gsi-" ++ m ++ "." ++ f) ≠ "" := by
  intro hcontra
  have hlen := congrArg String.length hcontra
  simp [String.length_append] at hlen
  exact absurd hlen.1.1.1 (by decide)

/-- Reconciling with no explicit index name and no explicit fields, when
an index of the derived name already exists: the table is unchanged and
only the configuration's index name is recorded. -/
theorem updateTableForConnection_existing (ctx : ReconcilerCtx)
    (config : HasManyDirectiveConfiguration) (table : TableModel)
    (hguard : (jsTruthyString config.indexName ||
      decide (config.fields.length > 0)) = false)
    (hany : table.globalSecondaryIndexes.any
      (fun gsi => gsi.indexName == derivedIndexName ctx config) = true) :
    updateTableForConnection ctx config table =
      ({ config with indexName := some (derivedIndexName ctx config) }, table) := by
  unfold updateTableForConnection
  rw [hguard]
  simp only [Bool.false_eq_true, if_false]
  rw [show ("gsi-" ++ ctx.getModelNameMapping config.object.name ++ "." ++ config.field.name) =
    derivedIndexName ctx config from rfl]
  rw [hany]
  simp

/-- Finding the just-added index by name on the declarative list yields
exactly the appended entry when no pre-existing index bears the name. -/
theorem find?_addGlobalSecondaryIndex (table : TableModel) (name : String)
    (pk : KeyAttribute) (sk : Option KeyAttribute)
    (hany : table.globalSecondaryIndexes.any (fun gsi => gsi.indexName == name) = false) :
    (addGlobalSecondaryIndex table name pk sk).globalSecondaryIndexes.find?
        (fun gsi => gsi.indexName == name) =
      some ⟨name, buildIndexKeySchema pk sk, "ALL"⟩ := by
  unfold addGlobalSecondaryIndex
  simp only
  rw [List.find?_append]
  have hnone : table.globalSecondaryIndexes.find?
      (fun gsi => gsi.indexName == name) = none := by
    rw [List.find?_eq_none]
    intro x hx
    have := (List.any_eq_false.mp hany) x hx
    simpa using this
  rw [hnone]
  simp

/-- Reconciling with no explicit index name and no explicit fields, when
no index of the derived name exists: the new index is appended to the
declarative list and mirrored, with the same name and the same key
schema, into the raw list. -/
theorem updateTableForConnection_add (ctx : ReconcilerCtx)
    (config : HasManyDirectiveConfiguration) (table : TableModel)
    (hguard : (jsTruthyString config.indexName ||
      decide (config.fields.length > 0)) = false)
    (hany : table.globalSecondaryIndexes.any
      (fun gsi => gsi.indexName == derivedIndexName ctx config) = false) :
    ∃ ks : List KeySchemaElement,
      updateTableForConnection ctx config table =
        ({ config with indexName := some (derivedIndexName ctx config) },
         { globalSecondaryIndexes :=
             table.globalSecondaryIndexes ++ [⟨derivedIndexName ctx config, ks, "ALL"⟩],
           cfnGlobalSecondaryIndexes :=
             some (appendIndex table.cfnGlobalSecondaryIndexes
               ⟨derivedIndexName ctx config, ks, "ALL"⟩) }) := by
  unfold updateTableForConnection
  rw [hguard]
  simp only [Bool.false_eq_true, if_false]
  rw [show ("gsi-" ++ ctx.getModelNameMapping config.object.name ++ "." ++ config.field.name) =
    derivedIndexName ctx config from rfl]
  rw [hany]
  simp only [Bool.false_eq_true, if_false]
  rw [find?_addGlobalSecondaryIndex table (derivedIndexName ctx config) _ _ hany]
  exact ⟨_, rfl⟩

/-- C3: reconciliation is idempotent.  For a relation configuration with
no explicit index name and no explicit fields, calling
`updateTableForConnection` twice (threading configuration and table)
leaves exactly one GSI of the derived name `gsi-<mapped>.<field>` on the
table; the second call changes nothing and does not fail. -/
theorem c3_reconciler_idempotent (ctx : ReconcilerCtx)
    (config : HasManyDirectiveConfiguration) (table : TableModel)
    (hno : config.indexName = none) (hfields : config.fields = [])
    (hcount : (table.globalSecondaryIndexes.filter
      (fun g => g.indexName == derivedIndexName ctx config)).length ≤ 1) :
    (updateTableForConnection ctx (updateTableForConnection ctx config table).1
        (updateTableForConnection ctx config table).2) =
      updateTableForConnection ctx config table ∧
    ((updateTableForConnection ctx config table).2.globalSecondaryIndexes.filter
      (fun g => g.indexName == derivedIndexName ctx config)).length = 1 := by
  have hsecond : ∀ c' t', c'.indexName = some (derivedIndexName ctx config) →
      updateTableForConnection ctx c' t' = (c', t') := by
    intro c' t' hc
    unfold updateTableForConnection
    rw [hc]
    have htruthy : jsTruthyString (some (derivedIndexName ctx config)) = true := by
      unfold jsTruthyString
      simp only [bne_iff_ne, ne_eq]
      exact derivedIndexName_ne_empty _ _
    rw [htruthy]
    simp
  cases hany : table.globalSecondaryIndexes.any
      (fun gsi => gsi.indexName == derivedIndexName ctx config) with
  | true =>
    have h1 := updateTableForConnection_existing ctx config table
      (by rw [hno, hfields]; rfl) hany
    rw [h1]
    refine ⟨hsecond _ _ rfl, ?_⟩
    have hpos : 0 < (table.globalSecondaryIndexes.filter
        (fun g => g.indexName == derivedIndexName ctx config)).length := by
      obtain ⟨x, hx, hpx⟩ := List.any_eq_true.mp hany
      have hmem : x ∈ table.globalSecondaryIndexes.filter
          (fun g => g.indexName == derivedIndexName ctx config) :=
        List.mem_filter.mpr ⟨hx, hpx⟩
      exact List.length_pos.mpr (List.ne_nil_of_mem hmem)
    show (List.filter (fun g => g.indexName == derivedIndexName ctx config)
      table.globalSecondaryIndexes).length = 1
    omega
  | false =>
    obtain ⟨ks, h1⟩ := updateTableForConnection_add ctx config table
      (by rw [hno, hfields]; rfl) hany
    rw [h1]
    refine ⟨hsecond _ _ rfl, ?_⟩
    rw [List.filter_append]
    have hleft : table.globalSecondaryIndexes.filter
        (fun g => g.indexName == derivedIndexName ctx config) = [] := by
      rw [List.filter_eq_nil_iff]
      intro x hx
      have := (List.any_eq_false.mp hany) x hx
      simpa using this
    rw [hleft]
    simp

/-- Witness for C3 at a concrete configuration and an empty table. -/
theorem c3_reconciler_idempotent_witness :
    ((updateTableForConnection
        ⟨id, false, fun _ _ k => k, fun _ => "S", fun _ => []⟩
        (updateTableForConnection
          ⟨id, false, fun _ _ k => k, fun _ => "S", fun _ => []⟩
          ⟨[], none, ⟨"Post", [], []⟩, ⟨"comments", .named "Comment", []⟩⟩
          ⟨[], none⟩).1
        (updateTableForConnection
          ⟨id, false, fun _ _ k => k, fun _ => "S", fun _ => []⟩
          ⟨[], none, ⟨"Post", [], []⟩, ⟨"comments", .named "Comment", []⟩⟩
          ⟨[], none⟩).2) =
      updateTableForConnection
        ⟨id, false, fun _ _ k => k, fun _ => "S", fun _ => []⟩
        ⟨[], none, ⟨"Post", [], []⟩, ⟨"comments", .named "Comment", []⟩⟩
        ⟨[], none⟩) ∧
    ((updateTableForConnection
        ⟨id, false, fun _ _ k => k, fun _ => "S", fun _ => []⟩
        ⟨[], none, ⟨"Post", [], []⟩, ⟨"comments", .named "Comment", []⟩⟩
        ⟨[], none⟩).2.globalSecondaryIndexes.filter
      (fun g => g.indexName == derivedIndexName
        ⟨id, false, fun _ _ k => k, fun _ => "S", fun _ => []⟩
        ⟨[], none, ⟨"Post", [], []⟩, ⟨"comments", .named "Comment", []⟩⟩)).length = 1 :=
  c3_reconciler_idempotent
    ⟨id, false, fun _ _ k => k, fun _ => "S", fun _ => []⟩
    ⟨[], none, ⟨"Post", [], []⟩, ⟨"comments", .named "Comment", []⟩⟩
    ⟨[], none⟩ rfl rfl (by decide)

/-- A single reconciliation call preserves the L1/L2 pairwise-consistency
invariant, whichever branch it takes. -/
theorem l1l2Consistent_preserved (ctx : ReconcilerCtx)
    (config : HasManyDirectiveConfiguration) (table : TableModel)
    (h : l1l2Consistent table = true) :
    l1l2Consistent (updateTableForConnection ctx config table).2 = true := by
  cases hguard : (jsTruthyString config.indexName || decide (config.fields.length > 0)) with
  | true =>
    have hnoop : updateTableForConnection ctx config table = (config, table) := by
      unfold updateTableForConnection
      rw [hguard]
      simp
    rw [hnoop]
    exact h
  | false =>
    cases hany : table.globalSecondaryIndexes.any
        (fun gsi => gsi.indexName == derivedIndexName ctx config) with
    | true =>
      rw [updateTableForConnection_existing ctx config table hguard hany]
      exact h
    | false =>
      obtain ⟨ks, h1⟩ := updateTableForConnection_add ctx config table hguard hany
      rw [h1]
      unfold l1l2Consistent at h ⊢
      simp only [Option.getD_some]
      cases hcfn : table.cfnGlobalSecondaryIndexes with
      | none =>
        rw [hcfn] at h
        simp only [Option.getD_none, List.any_nil, List.all_eq_true] at h
        rw [List.all_append]
        have hleft : table.globalSecondaryIndexes.all (fun g =>
            (appendIndex none ⟨derivedIndexName ctx config, ks, "ALL"⟩).any (fun r =>
              r.indexName == g.indexName && r.keySchema == g.keySchema)) = true := by
          rw [List.all_eq_true]
          intro g hg
          exact absurd (h g hg) (by simp)
        rw [hleft]
        simp [appendIndex]
      | some xs =>
        rw [hcfn] at h
        simp only [Option.getD_some, List.all_eq_true] at h
        rw [List.all_append]
        have hleft : table.globalSecondaryIndexes.all (fun g =>
            (appendIndex (some xs) ⟨derivedIndexName ctx config, ks, "ALL"⟩).any (fun r =>
              r.indexName == g.indexName && r.keySchema == g.keySchema)) = true := by
          rw [List.all_eq_true]
          intro g hg
          have hx := h g hg
          simp only [appendIndex, List.any_append]
          rw [hx]
          simp
        rw [hleft]
        simp [appendIndex]

/-- C9: L1/L2 consistency.  Starting from a table whose declarative index
entries all have matching raw entries (identical name and key schema),
every reconciliation call — including one that adds a new global
secondary index — re-establishes that pairwise consistency, and it is
preserved across repeated reconciliations. -/
theorem c9_l1_l2_consistency (ctx : ReconcilerCtx)
    (config : HasManyDirectiveConfiguration) (table : TableModel)
    (h : l1l2Consistent table = true) :
    l1l2Consistent (updateTableForConnection ctx config table).2 = true ∧
    l1l2Consistent (updateTableForConnection ctx
      (updateTableForConnection ctx config table).1
      (updateTableForConnection ctx config table).2).2 = true :=
  ⟨l1l2Consistent_preserved ctx config table h,
   l1l2Consistent_preserved ctx _ _ (l1l2Consistent_preserved ctx config table h)⟩

/-- Witness for C9 at a concrete configuration and an empty (trivially
consistent) table: the call adds the new GSI and both representations
stay pairwise consistent. -/
theorem c9_l1_l2_consistency_witness :
    l1l2Consistent (updateTableForConnection
      ⟨id, true, fun _ _ k => k, fun _ => "S",
       fun _ => [⟨"createdAt", .nonNull (.named "String"), []⟩]⟩
      ⟨[], none, ⟨"Post", [], []⟩, ⟨"comments", .named "Comment", []⟩⟩
      ⟨[], none⟩).2 = true :=
  (c9_l1_l2_consistency
    ⟨id, true, fun _ _ k => k, fun _ => "S",
     fun _ => [⟨"createdAt", .nonNull (.named "String"), []⟩]⟩
    ⟨[], none, ⟨"Post", [], []⟩, ⟨"comments", .named "Comment", []⟩⟩
    ⟨[], none⟩ (by decide)).1

end AmplifyCompiler
